import Mathlib

/-!
Verification development for the CBDC tax-base simulator
(repository `cbdc-tax-base-simulator`, files `cbdc_tax_simulator.py` and
`cbdc_tax_simulator2.py`).

The Python code is embedded shallowly:
* Python floats are modelled as rationals `ℚ` (all arithmetic in the
  engine is `+ - * / **` on small decimal constants, so the rational
  model computes the same real numbers the float code approximates).
* The JSON values exchanged by `json.dumps` / `json.loads` are modelled
  by an explicit `Json` inductive; `json.loads` itself is Python
  standard-library code external to this repository, so functions that
  call it take the parse outcome (`Except Unit Json`, `.error` for a
  raised parse exception) or the parser as a parameter.
* Python exceptions are modelled with `Except Unit`; the Streamlit
  session state mutated by the upload handler is threaded explicitly as
  a `SessionState` record.
-/

namespace CbdcSim

/-- Model of a Python/JSON value as produced by `json.loads` and consumed
by `json.dumps`. Objects are association lists of string keys. -/
inductive Json where
  | null : Json
  | bool (b : Bool) : Json
  | num (q : ℚ) : Json
  | str (s : String) : Json
  | arr (elems : List Json) : Json
  | obj (kvs : List (String × Json)) : Json

/-- Python truthiness of a value, as used by `if loaded_a and loaded_b and
loaded_th:` in the upload handler. -/
def Json.truthy : Json → Bool
  | .null => false
  | .bool b => b
  | .num q => q != 0
  | .str s => s != ""
  | .arr l => !l.isEmpty
  | .obj kvs => !kvs.isEmpty

/-- Truthiness of an optional value; Python `None` is falsy. -/
def truthyOpt : Option Json → Bool
  | none => false
  | some j => j.truthy

/-- Python `d[k]` subscript on a JSON value: a lookup in an object, raising
(`.error`) `KeyError` when the key is absent and `TypeError` when the value
is not a dict. -/
def Json.item (j : Json) (k : String) : Except Unit Json :=
  match j with
  | .obj kvs =>
    match kvs.lookup k with
    | some v => .ok v
    | none => .error ()
  | _ => .error ()

/-! ## Basic variant: `cbdc_tax_simulator.py` -/

/-- One row of the DataFrame built by `simulate_tax_base`
(columns Year, Tax Base, Tax Revenue). -/
structure Row where
  year : ℕ
  tax_base : ℚ
  tax_revenue : ℚ
deriving DecidableEq

/--
`simulate_tax_base` (`cbdc_tax_simulator.py`, lines 14-24):

    years_arr = np.arange(1, years + 1)
    multiplier = 1 + alpha * (adoption_rate / 100) * (compliance_increase / 100) * years_arr
    tax_base = baseline * multiplier
    tax_revenue = tax_base * (tax_rate / 100)

The NumPy vectorised arithmetic is per-year; row `i` carries year `i + 1`.
-/
def simulate_tax_base (baseline adoption_rate compliance_increase tax_rate : ℚ)
    (years : ℕ) (alpha : ℚ := 1/2) : List Row :=
  (List.range years).map (fun i =>
    let year : ℕ := i + 1
    let multiplier : ℚ := 1 + alpha * (adoption_rate / 100) * (compliance_increase / 100) * (year : ℚ)
    let tax_base : ℚ := baseline * multiplier
    { year := year, tax_base := tax_base, tax_revenue := tax_base * (tax_rate / 100) })

/--
`save_simulation` (`cbdc_tax_simulator.py`, lines 60-67): builds the dict
with keys `scenario_a`, `scenario_b`, `time_horizon` and serialises it with
`json.dumps`, which is standard-library code passed in as `dumps`.
-/
def save_simulation (dumps : Json → String) (params_a params_b time_horizon : Json) : String :=
  dumps (.obj [("scenario_a", params_a), ("scenario_b", params_b), ("time_horizon", time_horizon)])

/--
`load_simulation` (`cbdc_tax_simulator.py`, lines 69-74): `json.loads`
(standard-library code, passed in as `loads`, `.error` modelling a raised
exception) followed by three `dict.get` calls inside a `try` that catches
every exception and returns `(None, None, None)`. A parse failure, and
also a parsed value that is not a dict (whose `.get` raises
`AttributeError`), land in the `except` branch.
-/
def load_simulation (loads : String → Except Unit Json) (json_str : String) :
    Option Json × Option Json × Option Json :=
  match loads json_str with
  | .error _ => (none, none, none)
  | .ok (.obj kvs) => (kvs.lookup "scenario_a", kvs.lookup "scenario_b", kvs.lookup "time_horizon")
  | .ok _ => (none, none, none)

/-- The scenario parameter record the UI holds for one scenario
(`baseline_a`, `adoption_a`, `compliance_a`, `tax_rate_a` and the B twins). -/
structure ScenarioParams where
  baseline : ℚ
  adoption : ℚ
  compliance : ℚ
  tax_rate : ℚ
deriving DecidableEq

/-- The dict built for `save_simulation` (`cbdc_tax_simulator.py`,
lines 146-157): the scenario parameters keyed by their display strings. -/
def params_to_json (p : ScenarioParams) : Json :=
  .obj [("Baseline Tax Base (UGX Bn)", .num p.baseline),
        ("CBDC Adoption Rate (%)", .num p.adoption),
        ("Compliance Improvement (%)", .num p.compliance),
        ("Tax Rate (%)", .num p.tax_rate)]

/-- Reading the four parameter fields back out of a loaded scenario dict,
as the upload handler does (`loaded_a["Baseline Tax Base (UGX Bn)"]`, ...). -/
def params_of_json (j : Json) : Option ScenarioParams :=
  match j.item "Baseline Tax Base (UGX Bn)", j.item "CBDC Adoption Rate (%)",
        j.item "Compliance Improvement (%)", j.item "Tax Rate (%)" with
  | .ok (.num b), .ok (.num a), .ok (.num c), .ok (.num t) =>
    some { baseline := b, adoption := a, compliance := c, tax_rate := t }
  | _, _, _, _ => none

/-- The Streamlit session-state slots the upload handler mutates
(`st.session_state.ba`, `.aa`, `.ca`, `.tra`, `.bb`, `.ab`, `.cb`, `.trb`,
`.th`). Values are JSON values copied straight from the loaded dicts. -/
structure SessionState where
  ba : Json
  aa : Json
  ca : Json
  tra : Json
  bb : Json
  ab : Json
  cb : Json
  trb : Json
  th : Json

/-- How the upload handler terminates: `success` is the
`st.success(...)`/rerun path, `failure` is `st.error("Failed to load
simulation file.")`, `raised` is an exception (e.g. `KeyError`) escaping
the handler uncaught. -/
inductive LoadOutcome where
  | success : LoadOutcome
  | failure : LoadOutcome
  | raised : LoadOutcome
deriving DecidableEq

/--
The uploaded-file handler (`cbdc_tax_simulator.py`, lines 161-182): it
calls `load_simulation` on the file content, and if all three results are
truthy it assigns the nine session-state slots one by one, each
`loaded_x["..."]` subscript raising `KeyError` when the field is absent
and leaving the assignments already made in place; otherwise it shows the
failure message and touches nothing. The mutated state plus termination
kind is returned.
-/
def uploaded_file_handler (loads : String → Except Unit Json) (content : String)
    (st0 : SessionState) : SessionState × LoadOutcome :=
  match load_simulation loads content with
  | (loaded_a, loaded_b, loaded_th) =>
    if truthyOpt loaded_a && truthyOpt loaded_b && truthyOpt loaded_th then
      match loaded_a, loaded_b, loaded_th with
      | some a, some b, some t =>
        match a.item "Baseline Tax Base (UGX Bn)" with
        | .error _ => (st0, .raised)
        | .ok v1 =>
          let st1 := { st0 with ba := v1 }
          match a.item "CBDC Adoption Rate (%)" with
          | .error _ => (st1, .raised)
          | .ok v2 =>
            let st2 := { st1 with aa := v2 }
            match a.item "Compliance Improvement (%)" with
            | .error _ => (st2, .raised)
            | .ok v3 =>
              let st3 := { st2 with ca := v3 }
              match a.item "Tax Rate (%)" with
              | .error _ => (st3, .raised)
              | .ok v4 =>
                let st4 := { st3 with tra := v4 }
                match b.item "Baseline Tax Base (UGX Bn)" with
                | .error _ => (st4, .raised)
                | .ok v5 =>
                  let st5 := { st4 with bb := v5 }
                  match b.item "CBDC Adoption Rate (%)" with
                  | .error _ => (st5, .raised)
                  | .ok v6 =>
                    let st6 := { st5 with ab := v6 }
                    match b.item "Compliance Improvement (%)" with
                    | .error _ => (st6, .raised)
                    | .ok v7 =>
                      let st7 := { st6 with cb := v7 }
                      match b.item "Tax Rate (%)" with
                      | .error _ => (st7, .raised)
                      | .ok v8 =>
                        let st8 := { st7 with trb := v8 }
                        ({ st8 with th := t }, .success)
      | _, _, _ => (st0, .raised)
    else (st0, .failure)

/-! ## Macro-extended variant: `cbdc_tax_simulator2.py` -/

namespace Simulator2

/-- `alpha = 0.5  # CBDC sensitivity coefficient` (line 59). -/
def alpha : ℚ := 1/2

/-- `estimate_gdp_growth_rate` (lines 62-65): returns the constant `0.05`
("assume 5% if no data"); it reads nothing from the fetched indicators. -/
def estimate_gdp_growth_rate : ℚ := 5/100

/-- `gdp_growth_rate = estimate_gdp_growth_rate()` (line 67). -/
def gdp_growth_rate : ℚ := estimate_gdp_growth_rate

/-- `inflation_factor = (1 + inflation_rate / 100) ** years` (line 73),
per year `t`. -/
def inflation_factor (inflation_rate : ℚ) (t : ℕ) : ℚ :=
  (1 + inflation_rate / 100) ^ t

/-- `population_factor = (1 + population_growth_rate / 100) ** years`
(line 74), per year `t`. -/
def population_factor (population_growth_rate : ℚ) (t : ℕ) : ℚ :=
  (1 + population_growth_rate / 100) ^ t

/-- `gdp_factor = (1 + gdp_growth_rate) ** years * gdp_impact_factor +
(1 - gdp_impact_factor)` (line 75), per year `t`. -/
def gdp_factor (gdp_impact_factor : ℚ) (t : ℕ) : ℚ :=
  (1 + gdp_growth_rate) ^ t * gdp_impact_factor + (1 - gdp_impact_factor)

/-- `cbdc_multiplier = 1 + alpha * (cbdc_adoption_rate / 100) *
(compliance_improvement / 100) * years` (line 78), per year `t`. -/
def cbdc_multiplier (cbdc_adoption_rate compliance_improvement : ℚ) (t : ℕ) : ℚ :=
  1 + alpha * (cbdc_adoption_rate / 100) * (compliance_improvement / 100) * (t : ℚ)

/-- `total_growth_multiplier = cbdc_multiplier * inflation_factor *
population_factor * gdp_factor` (line 81), per year `t`. -/
def total_growth_multiplier (cbdc_adoption_rate compliance_improvement
    inflation_rate population_growth_rate gdp_impact_factor : ℚ) (t : ℕ) : ℚ :=
  cbdc_multiplier cbdc_adoption_rate compliance_improvement t *
    inflation_factor inflation_rate t *
    population_factor population_growth_rate t *
    gdp_factor gdp_impact_factor t

/-- One row of `df_results` (lines 88-96): Year, Tax Base, Tax Revenue and
the intermediate factor columns. -/
structure ResultRow where
  year : ℕ
  tax_base : ℚ
  tax_revenue : ℚ
  inflation_factor : ℚ
  population_factor : ℚ
  gdp_factor : ℚ
  cbdc_multiplier : ℚ
deriving DecidableEq

/--
The simulation logic of `cbdc_tax_simulator2.py` (lines 70-96):
`years = np.arange(1, time_horizon + 1)`, the per-year factors, then
`tax_base_over_time = baseline_tax_base * total_growth_multiplier` and
`tax_revenue_over_time = tax_base_over_time * (effective_tax_rate / 100)`,
assembled into the results DataFrame.
-/
def df_results (baseline_tax_base cbdc_adoption_rate compliance_improvement
    effective_tax_rate : ℚ) (time_horizon : ℕ)
    (inflation_rate population_growth_rate gdp_impact_factor : ℚ) : List ResultRow :=
  (List.range time_horizon).map (fun i =>
    let t : ℕ := i + 1
    let tax_base : ℚ := baseline_tax_base *
      total_growth_multiplier cbdc_adoption_rate compliance_improvement
        inflation_rate population_growth_rate gdp_impact_factor t
    { year := t
      tax_base := tax_base
      tax_revenue := tax_base * (effective_tax_rate / 100)
      inflation_factor := inflation_factor inflation_rate t
      population_factor := population_factor population_growth_rate t
      gdp_factor := gdp_factor gdp_impact_factor t
      cbdc_multiplier := cbdc_multiplier cbdc_adoption_rate compliance_improvement t })

/--
`fetch_world_bank_data` (lines 19-28): takes the outcome of the HTTP
request plus JSON decode (external collaborators; `.error` models any
raised exception or non-JSON body) and extracts `data[1][0]['value']`;
any failure along the way is caught and yields Python `None`, modelled as
`Json.null` (which is also what a JSON `null` value extracts to). -/
def fetch_world_bank_data (response : Except Unit Json) : Json :=
  match response with
  | .error _ => .null
  | .ok data =>
    match data with
    | .arr l =>
      match l.get? 1 with
      | some (.arr inner) =>
        match inner.get? 0 with
        | some first =>
          match first.item "value" with
          | .ok v => v
          | .error _ => .null
        | none => .null
      | _ => .null
    | _ => .null

/--
The whole script run as a function of its inputs: the two fetched
indicator values `latest_gdp`, `latest_population` (lines 30-31, shown in
the sidebar at lines 34-36 but never read by the simulation logic) and the
sidebar simulation parameters (lines 41-56). Returns the results table of
lines 88-96.
-/
def run_script (latest_gdp latest_population : Json)
    (baseline_tax_base cbdc_adoption_rate compliance_improvement effective_tax_rate : ℚ)
    (time_horizon : ℕ) (inflation_rate population_growth_rate gdp_impact_factor : ℚ) :
    List ResultRow :=
  let sidebar_gdp_shown : Bool := latest_gdp.truthy
  let sidebar_population_shown : Bool := latest_population.truthy
  let _ := (sidebar_gdp_shown, sidebar_population_shown)
  df_results baseline_tax_base cbdc_adoption_rate compliance_improvement
    effective_tax_rate time_horizon inflation_rate population_growth_rate gdp_impact_factor

end Simulator2

/-! ## Helper lemmas -/

/-- The CBDC multiplier `1 + alpha (a/100)(c/100) t` is at least 1 for
nonnegative rates and year. -/
lemma one_le_cbdc_expr (a c t : ℚ) (ha : 0 ≤ a) (hc : 0 ≤ c) (ht : 0 ≤ t) :
    1 ≤ 1 + (1/2 : ℚ) * (a / 100) * (c / 100) * t := by
  nlinarith [mul_nonneg (mul_nonneg ha hc) ht]

/-- Product of two factors that are at least 1 is at least 1. -/
lemma one_le_mul_rat {x y : ℚ} (hx : 1 ≤ x) (hy : 1 ≤ y) : 1 ≤ x * y := by nlinarith

/-- The inflation factor is at least 1 for a nonnegative inflation rate. -/
lemma one_le_inflation_factor (ir : ℚ) (t : ℕ) (h : 0 ≤ ir) :
    1 ≤ Simulator2.inflation_factor ir t :=
  one_le_pow₀ (by linarith)

/-- The population factor is at least 1 for a nonnegative growth rate. -/
lemma one_le_population_factor (pr : ℚ) (t : ℕ) (h : 0 ≤ pr) :
    1 ≤ Simulator2.population_factor pr t :=
  one_le_pow₀ (by linarith)

/-- The GDP factor is at least 1 for a nonnegative impact factor. -/
lemma one_le_gdp_factor (g : ℚ) (t : ℕ) (h0 : 0 ≤ g) :
    1 ≤ Simulator2.gdp_factor g t := by
  unfold Simulator2.gdp_factor
  have hp : 1 ≤ (1 + Simulator2.gdp_growth_rate) ^ t := by
    apply one_le_pow₀
    norm_num [Simulator2.gdp_growth_rate, Simulator2.estimate_gdp_growth_rate]
  nlinarith

/-- The combined multiplier of the macro-extended variant is at least 1
for in-range rates. -/
lemma one_le_total_growth_multiplier (a c ir pr g : ℚ) (t : ℕ)
    (ha : 0 ≤ a) (hc : 0 ≤ c) (hir : 0 ≤ ir) (hpr : 0 ≤ pr)
    (hg0 : 0 ≤ g) :
    1 ≤ Simulator2.total_growth_multiplier a c ir pr g t := by
  unfold Simulator2.total_growth_multiplier
  have h1 : 1 ≤ Simulator2.cbdc_multiplier a c t :=
    one_le_cbdc_expr a c t ha hc (by positivity)
  exact one_le_mul_rat
    (one_le_mul_rat (one_le_mul_rat h1 (one_le_inflation_factor ir t hir))
      (one_le_population_factor pr t hpr))
    (one_le_gdp_factor g t hg0)

/-! ## Claims -/

/-- Claim C1: for every year `t` in `1..time_horizon` the basic engine
computes `cbdc_multiplier(t) = 1 + 0.5 (adoption/100)(compliance/100) t`
and `tax_base(t) = baseline * cbdc_multiplier(t)`; concretely, for
baseline 5000, adoption 50, compliance 20, tax rate 15, horizon 5, year 1
has tax base 5250.00 and revenue 787.50, and year 5 has tax base 6250.00
and revenue 937.50. -/
theorem C1_engine_formula (baseline adoption_rate compliance_increase tax_rate : ℚ)
    (years t : ℕ) (h1 : 1 ≤ t) (h2 : t ≤ years) :
    (simulate_tax_base baseline adoption_rate compliance_increase tax_rate years)[t - 1]? =
      some { year := t
             tax_base := baseline *
               (1 + (1/2 : ℚ) * (adoption_rate / 100) * (compliance_increase / 100) * (t : ℚ))
             tax_revenue := baseline *
               (1 + (1/2 : ℚ) * (adoption_rate / 100) * (compliance_increase / 100) * (t : ℚ)) *
               (tax_rate / 100) } ∧
    (simulate_tax_base 5000 50 20 15 5)[0]? =
      some { year := 1, tax_base := 5250, tax_revenue := 1575/2 } ∧
    (simulate_tax_base 5000 50 20 15 5)[4]? =
      some { year := 5, tax_base := 6250, tax_revenue := 1875/2 } := by
  refine ⟨?_, ?_, ?_⟩
  · obtain ⟨s, rfl⟩ : ∃ s, t = s + 1 := ⟨t - 1, (Nat.sub_add_cancel h1).symm⟩
    have hs : s < years := by omega
    simp [simulate_tax_base, List.getElem?_map, List.getElem?_range, hs]
  · norm_num [simulate_tax_base, List.getElem?_map, List.getElem?_range]
  · norm_num [simulate_tax_base, List.getElem?_map, List.getElem?_range]

/-- Witness for C1 at `t = 2`, horizon 5. -/
theorem C1_engine_formula_witness :
    (1 ≤ 2 ∧ 2 ≤ 5) ∧
    ((simulate_tax_base 5000 50 20 15 5)[2 - 1]? =
      some { year := 2
             tax_base := 5000 * (1 + (1/2 : ℚ) * (50 / 100) * (20 / 100) * ((2 : ℕ) : ℚ))
             tax_revenue := 5000 *
               (1 + (1/2 : ℚ) * (50 / 100) * (20 / 100) * ((2 : ℕ) : ℚ)) * (15 / 100) } ∧
    (simulate_tax_base 5000 50 20 15 5)[0]? =
      some { year := 1, tax_base := 5250, tax_revenue := 1575/2 } ∧
    (simulate_tax_base 5000 50 20 15 5)[4]? =
      some { year := 5, tax_base := 6250, tax_revenue := 1875/2 }) :=
  ⟨⟨by decide, by decide⟩, C1_engine_formula 5000 50 20 15 5 2 (by decide) (by decide)⟩

/-- Claim C2: in both variants every row's tax revenue equals its tax base
times `tax_rate / 100`; revenue is a derived field (in the rational model
the identity is exact). -/
theorem C2_revenue_derived (baseline adoption compliance tax_rate alpha : ℚ) (years : ℕ)
    (inflation_rate population_growth_rate gdp_impact_factor : ℚ) :
    (∀ row ∈ simulate_tax_base baseline adoption compliance tax_rate years alpha,
      row.tax_revenue = row.tax_base * (tax_rate / 100)) ∧
    (∀ row ∈ Simulator2.df_results baseline adoption compliance tax_rate years
        inflation_rate population_growth_rate gdp_impact_factor,
      row.tax_revenue = row.tax_base * (tax_rate / 100)) := by
  constructor
  · intro row hrow
    simp only [simulate_tax_base, List.mem_map] at hrow
    obtain ⟨i, _, rfl⟩ := hrow
    rfl
  · intro row hrow
    simp only [Simulator2.df_results, List.mem_map] at hrow
    obtain ⟨i, _, rfl⟩ := hrow
    rfl

/-- Witness for C2 at the default parameters, year-1 row of each variant. -/
theorem C2_revenue_derived_witness :
    ({ year := 1, tax_base := 5250, tax_revenue := 1575/2 : Row} ∈
        simulate_tax_base 5000 50 20 15 2 (1/2) ∧
      (1575/2 : ℚ) = 5250 * (15 / 100)) ∧
    ((Simulator2.df_results 5000 50 20 15 2 0 0 0).head? = some
        { year := 1, tax_base := 5250, tax_revenue := 1575/2,
          inflation_factor := 1, population_factor := 1, gdp_factor := 1,
          cbdc_multiplier := 21/20 } ∧
      (1575/2 : ℚ) = 5250 * (15 / 100)) := by
  have h := C2_revenue_derived 5000 50 20 15 (1/2) 2 0 0 0
  have hmem : ({ year := 1, tax_base := 5250, tax_revenue := 1575/2 : Row} ∈
      simulate_tax_base 5000 50 20 15 2 (1/2)) := by
    simp [simulate_tax_base, List.range_succ]
    norm_num
  refine ⟨⟨hmem, ?_⟩, ⟨?_, ?_⟩⟩
  · simpa using h.1 _ hmem
  · norm_num [Simulator2.df_results, Simulator2.total_growth_multiplier,
      Simulator2.cbdc_multiplier, Simulator2.inflation_factor,
      Simulator2.population_factor, Simulator2.gdp_factor, Simulator2.alpha,
      Simulator2.gdp_growth_rate, Simulator2.estimate_gdp_growth_rate,
      List.range_succ]
  · have hmem2 : ((⟨1, 5250, 1575/2, 1, 1, 1, 21/20⟩ : Simulator2.ResultRow) ∈
        Simulator2.df_results 5000 50 20 15 2 0 0 0) := by
      simp [Simulator2.df_results, Simulator2.total_growth_multiplier,
        Simulator2.cbdc_multiplier, Simulator2.inflation_factor,
        Simulator2.population_factor, Simulator2.gdp_factor, Simulator2.alpha,
        Simulator2.gdp_growth_rate, Simulator2.estimate_gdp_growth_rate,
        List.range_succ]
      norm_num
    simpa using h.2 _ hmem2

/-- Claim C3, counterexample: with the in-range inputs baseline 5000,
adoption 50, compliance 20, tax rate 15, horizon 5 (the defaults of both
scripts), the year-1 row has tax revenue 787.50, which is far below the
baseline 5000 — so it is not the case that every `tax_base` and
`tax_revenue` value is at least `baseline_tax_base`. -/
theorem C3_counterexample :
    ¬ (∀ row ∈ simulate_tax_base 5000 50 20 15 5,
        (5000 : ℚ) ≤ row.tax_base ∧ (5000 : ℚ) ≤ row.tax_revenue) := by
  intro h
  have := h { year := 1, tax_base := 5250, tax_revenue := 1575/2 }
    (by simp [simulate_tax_base, List.range_succ]; norm_num)
  norm_num at this

/-- Claim C3 as amended: for in-range inputs, every `tax_base` in either
variant is at least `baseline_tax_base`, and every `tax_revenue` is at
least `baseline_tax_base * tax_rate / 100` (not the baseline itself,
since revenue carries the factor `tax_rate / 100 ≤ 1/2`). -/
theorem C3_base_dominates_baseline
    (baseline adoption compliance tax_rate : ℚ) (years : ℕ)
    (inflation_rate population_growth_rate gdp_impact_factor : ℚ)
    (hb : 100 ≤ baseline)
    (ha0 : 0 ≤ adoption) (ha1 : adoption ≤ 100)
    (hc0 : 0 ≤ compliance) (hc1 : compliance ≤ 100)
    (hr0 : 0 ≤ tax_rate) (hr1 : tax_rate ≤ 50)
    (hir : 0 ≤ inflation_rate) (hpr : 0 ≤ population_growth_rate)
    (hg0 : 0 ≤ gdp_impact_factor) (hg1 : gdp_impact_factor ≤ 1) :
    (∀ row ∈ simulate_tax_base baseline adoption compliance tax_rate years,
      baseline ≤ row.tax_base ∧ baseline * (tax_rate / 100) ≤ row.tax_revenue) ∧
    (∀ row ∈ Simulator2.df_results baseline adoption compliance tax_rate years
        inflation_rate population_growth_rate gdp_impact_factor,
      baseline ≤ row.tax_base ∧ baseline * (tax_rate / 100) ≤ row.tax_revenue) := by
  have hbpos : (0 : ℚ) ≤ baseline := by linarith
  have hrnn : (0 : ℚ) ≤ tax_rate / 100 := by positivity
  constructor
  · intro row hrow
    simp only [simulate_tax_base, List.mem_map] at hrow
    obtain ⟨i, _, rfl⟩ := hrow
    have hm : 1 ≤ 1 + (1/2 : ℚ) * (adoption / 100) * (compliance / 100) * ((i + 1 : ℕ) : ℚ) :=
      one_le_cbdc_expr adoption compliance _ ha0 hc0 (by positivity)
    have hbase : baseline ≤ baseline *
        (1 + (1/2 : ℚ) * (adoption / 100) * (compliance / 100) * ((i + 1 : ℕ) : ℚ)) :=
      le_mul_of_one_le_right hbpos hm
    exact ⟨hbase, mul_le_mul_of_nonneg_right hbase hrnn⟩
  · intro row hrow
    simp only [Simulator2.df_results, List.mem_map] at hrow
    obtain ⟨i, _, rfl⟩ := hrow
    have hm : 1 ≤ Simulator2.total_growth_multiplier adoption compliance
        inflation_rate population_growth_rate gdp_impact_factor (i + 1) :=
      one_le_total_growth_multiplier adoption compliance inflation_rate
        population_growth_rate gdp_impact_factor (i + 1) ha0 hc0 hir hpr hg0
    have hbase : baseline ≤ baseline * Simulator2.total_growth_multiplier adoption compliance
        inflation_rate population_growth_rate gdp_impact_factor (i + 1) :=
      le_mul_of_one_le_right hbpos hm
    exact ⟨hbase, mul_le_mul_of_nonneg_right hbase hrnn⟩

/-- Witness for the amended C3 at the default in-range parameters and the
year-1 row of each variant. -/
theorem C3_base_dominates_baseline_witness :
    ((5000 : ℚ) ≤ Row.tax_base { year := 1, tax_base := 5250, tax_revenue := 1575/2 } ∧
      (5000 : ℚ) * (15 / 100) ≤ Row.tax_revenue { year := 1, tax_base := 5250, tax_revenue := 1575/2 }) ∧
    ((5000 : ℚ) ≤ Simulator2.ResultRow.tax_base ⟨1, 5250, 1575/2, 1, 1, 1, 21/20⟩ ∧
      (5000 : ℚ) * (15 / 100) ≤ Simulator2.ResultRow.tax_revenue ⟨1, 5250, 1575/2, 1, 1, 1, 21/20⟩) := by
  have h := C3_base_dominates_baseline 5000 50 20 15 2 0 0 0
    (by norm_num) (by norm_num) (by norm_num) (by norm_num) (by norm_num)
    (by norm_num) (by norm_num) (by norm_num) (by norm_num) (by norm_num) (by norm_num)
  have hmem1 : ({ year := 1, tax_base := 5250, tax_revenue := 1575/2 : Row}) ∈
      simulate_tax_base 5000 50 20 15 2 := by
    simp [simulate_tax_base, List.range_succ]
    norm_num
  have hmem2 : (⟨1, 5250, 1575/2, 1, 1, 1, 21/20⟩ : Simulator2.ResultRow) ∈
      Simulator2.df_results 5000 50 20 15 2 0 0 0 := by
    simp [Simulator2.df_results, Simulator2.total_growth_multiplier,
      Simulator2.cbdc_multiplier, Simulator2.inflation_factor,
      Simulator2.population_factor, Simulator2.gdp_factor, Simulator2.alpha,
      Simulator2.gdp_growth_rate, Simulator2.estimate_gdp_growth_rate,
      List.range_succ]
    norm_num
  exact ⟨h.1 _ hmem1, h.2 _ hmem2⟩

/-- Claim C4: the projection table for horizon `N` restricted to its first
`M` rows (the rows with `year ≤ M`) is exactly the table for horizon `M`,
for any `M ≤ N` — years are independent computations with no cross-year
recurrence. -/
theorem C4_horizon_rows_stable (baseline adoption compliance tax_rate alpha : ℚ)
    (M N : ℕ) (h : M ≤ N) :
    (simulate_tax_base baseline adoption compliance tax_rate N alpha).take M =
      simulate_tax_base baseline adoption compliance tax_rate M alpha := by
  unfold simulate_tax_base
  rw [← List.map_take, List.take_range, Nat.min_eq_left h]

/-- Witness for C4 with horizons 2 ≤ 5 at the default parameters. -/
theorem C4_horizon_rows_stable_witness :
    (2 ≤ 5) ∧
    (simulate_tax_base 5000 50 20 15 5 (1/2)).take 2 =
      simulate_tax_base 5000 50 20 15 2 (1/2) :=
  ⟨by decide, C4_horizon_rows_stable 5000 50 20 15 (1/2) 2 5 (by decide)⟩

/-- Claim C5: loading a saved simulation returns exactly the two scenario
parameter records and the time horizon that were saved, so rerunning the
engine on the loaded values reproduces the original projection table.
`json.dumps`/`json.loads` are Python standard-library collaborators; the
hypothesis is their round-trip contract at the saved document. -/
theorem C5_save_load_round_trip (dumps : Json → String)
    (loads : String → Except Unit Json) (pa pb : ScenarioParams) (th : ℚ) (years : ℕ)
    (hload : loads (save_simulation dumps (params_to_json pa) (params_to_json pb) (.num th)) =
      .ok (.obj [("scenario_a", params_to_json pa), ("scenario_b", params_to_json pb),
                 ("time_horizon", .num th)])) :
    load_simulation loads
        (save_simulation dumps (params_to_json pa) (params_to_json pb) (.num th)) =
      (some (params_to_json pa), some (params_to_json pb), some (.num th)) ∧
    params_of_json (params_to_json pa) = some pa ∧
    params_of_json (params_to_json pb) = some pb ∧
    (params_of_json (params_to_json pa)).map
        (fun p => simulate_tax_base p.baseline p.adoption p.compliance p.tax_rate years) =
      some (simulate_tax_base pa.baseline pa.adoption pa.compliance pa.tax_rate years) := by
  refine ⟨?_, ?_, ?_, ?_⟩
  · unfold load_simulation
    rw [hload]
    rfl
  · rfl
  · rfl
  · rfl

/-- Witness for C5 at two concrete scenarios, horizon 5, with a parser
meeting the round-trip contract at the saved document. -/
theorem C5_save_load_round_trip_witness :
    load_simulation
        (fun _ => .ok (.obj [("scenario_a", params_to_json ⟨5000, 50, 20, 15⟩),
                             ("scenario_b", params_to_json ⟨4000, 30, 10, 12⟩),
                             ("time_horizon", .num 5)]))
        (save_simulation (fun _ => "cbdc_simulation.json")
          (params_to_json ⟨5000, 50, 20, 15⟩) (params_to_json ⟨4000, 30, 10, 12⟩) (.num 5)) =
      (some (params_to_json ⟨5000, 50, 20, 15⟩), some (params_to_json ⟨4000, 30, 10, 12⟩),
        some (.num 5)) ∧
    params_of_json (params_to_json ⟨5000, 50, 20, 15⟩) = some ⟨5000, 50, 20, 15⟩ ∧
    params_of_json (params_to_json ⟨4000, 30, 10, 12⟩) = some ⟨4000, 30, 10, 12⟩ ∧
    (params_of_json (params_to_json ⟨5000, 50, 20, 15⟩)).map
        (fun p => simulate_tax_base p.baseline p.adoption p.compliance p.tax_rate 3) =
      some (simulate_tax_base 5000 50 20 15 3) :=
  C5_save_load_round_trip (fun _ => "cbdc_simulation.json")
    (fun _ => .ok (.obj [("scenario_a", params_to_json ⟨5000, 50, 20, 15⟩),
                         ("scenario_b", params_to_json ⟨4000, 30, 10, 12⟩),
                         ("time_horizon", .num 5)]))
    ⟨5000, 50, 20, 15⟩ ⟨4000, 30, 10, 12⟩ 5 3 rfl

/-- The snapshot used to refute claim C6: top-level structure is intact
(all three keys present and truthy) but `scenario_a` is missing its
`"Tax Rate (%)"` field. -/
def snapshot_missing_tax_rate : Json :=
  .obj [("scenario_a", .obj [("Baseline Tax Base (UGX Bn)", .num 5000),
                             ("CBDC Adoption Rate (%)", .num 50),
                             ("Compliance Improvement (%)", .num 20)]),
        ("scenario_b", .obj [("Baseline Tax Base (UGX Bn)", .num 4000),
                             ("CBDC Adoption Rate (%)", .num 30),
                             ("Compliance Improvement (%)", .num 10),
                             ("Tax Rate (%)", .num 12)]),
        ("time_horizon", .num 5)]

/-- A session state prior to an upload, with all slots distinct from the
snapshot's values. -/
def prior_state : SessionState :=
  ⟨.num 0, .num 0, .num 0, .num 0, .num 0, .num 0, .num 0, .num 0, .num 0⟩

/-- Claim C6, counterexample: on a snapshot whose `scenario_a` lacks
`"Tax Rate (%)"`, the upload handler does not fail as a whole — it raises
an uncaught `KeyError` only after having already written `scenario_a`'s
first three fields into the session state, so the caller's parameters are
partially overwritten and no `MalformedSnapshot`-style error is reported. -/
theorem C6_counterexample :
    uploaded_file_handler (fun _ => .ok snapshot_missing_tax_rate) "upload" prior_state =
      ({ prior_state with ba := .num 5000, aa := .num 50, ca := .num 20 },
        LoadOutcome.raised) ∧
    ({ prior_state with ba := .num 5000, aa := .num 50, ca := .num 20 } : SessionState).ba ≠
      prior_state.ba := by
  refine ⟨rfl, ?_⟩
  intro h
  have h2 : (5000 : ℚ) = 0 := Json.num.inj h
  norm_num at h2

/-- Claim C6 as amended: the handler fails as a whole, leaving the session
state untouched, exactly when parsing fails or a top-level key is absent
or falsy; but when the top level is intact and a required inner field
(here `scenario_a`'s tax rate) is missing, the handler instead raises an
uncaught `KeyError` after applying the fields read before it, partially
overwriting the caller's parameters. Values are never range-checked and
no `MalformedSnapshot` error type exists. -/
theorem C6_no_partial_only_at_top_level :
    (∀ (loads : String → Except Unit Json) (content : String) (st0 : SessionState),
      (truthyOpt (load_simulation loads content).1 = false ∨
       truthyOpt (load_simulation loads content).2.1 = false ∨
       truthyOpt (load_simulation loads content).2.2 = false) →
      uploaded_file_handler loads content st0 = (st0, .failure)) ∧
    (∀ (loads : String → Except Unit Json) (content : String) (st0 : SessionState)
       (a b t v1 v2 v3 : Json),
      load_simulation loads content = (some a, some b, some t) →
      a.truthy = true → b.truthy = true → t.truthy = true →
      a.item "Baseline Tax Base (UGX Bn)" = .ok v1 →
      a.item "CBDC Adoption Rate (%)" = .ok v2 →
      a.item "Compliance Improvement (%)" = .ok v3 →
      a.item "Tax Rate (%)" = .error () →
      uploaded_file_handler loads content st0 =
        ({ st0 with ba := v1, aa := v2, ca := v3 }, .raised)) := by
  constructor
  · intro loads content st0 h
    unfold uploaded_file_handler
    rcases hl : load_simulation loads content with ⟨la, lb, lth⟩
    rw [hl] at h
    simp only at h
    rcases h with h | h | h <;> simp [h]
  · intro loads content st0 a b t v1 v2 v3 hl hta htb htt h1 h2 h3 h4
    unfold uploaded_file_handler
    rw [hl]
    simp [truthyOpt, hta, htb, htt, h1, h2, h3, h4]

/-- Witness for the amended C6: a parse failure leaves the state exactly
as it was with the failure message, and the concrete truncated snapshot
triggers the partial-overwrite-then-raise behaviour. -/
theorem C6_no_partial_only_at_top_level_witness :
    uploaded_file_handler (fun _ => .error ()) "not json" prior_state =
      (prior_state, .failure) ∧
    uploaded_file_handler (fun _ => .ok snapshot_missing_tax_rate) "trunc" prior_state =
      ({ prior_state with ba := .num 5000, aa := .num 50, ca := .num 20 },
        LoadOutcome.raised) :=
  ⟨C6_no_partial_only_at_top_level.1 (fun _ => .error ()) "not json" prior_state
      (Or.inl rfl),
   C6_no_partial_only_at_top_level.2 (fun _ => .ok snapshot_missing_tax_rate) "trunc"
      prior_state _ _ _ _ _ _ rfl rfl rfl rfl rfl rfl rfl rfl⟩

/-- The value the projection would read for a top-level snapshot key, as
claim C10 states it: the value stored under the key when the parse
succeeded and produced an object, and `none` otherwise. -/
def top_level_get (parsed : Except Unit Json) (k : String) : Option Json :=
  match parsed with
  | .ok (.obj kvs) => kvs.lookup k
  | _ => none

/-- Claim C7: in the macro-extended variant the GDP factor is the convex
blend `gdp_impact_factor * (1 + 0.05) ^ t + (1 - gdp_impact_factor)` with
the growth rate the fixed constant `0.05`, inflation and population
factors compound as `(1 + rate/100) ^ t`, and the combined multiplier is
the product of the CBDC, inflation, population and GDP factors; the
script's output does not read the fetched indicators. -/
theorem C7_macro_factor_formulas (adoption compliance inflation_rate
    population_growth_rate gdp_impact_factor : ℚ) (t : ℕ) :
    Simulator2.gdp_growth_rate = 5/100 ∧
    Simulator2.gdp_factor gdp_impact_factor t =
      gdp_impact_factor * (1 + (5/100 : ℚ)) ^ t + (1 - gdp_impact_factor) ∧
    Simulator2.inflation_factor inflation_rate t = (1 + inflation_rate / 100) ^ t ∧
    Simulator2.population_factor population_growth_rate t =
      (1 + population_growth_rate / 100) ^ t ∧
    Simulator2.total_growth_multiplier adoption compliance inflation_rate
        population_growth_rate gdp_impact_factor t =
      Simulator2.cbdc_multiplier adoption compliance t *
        Simulator2.inflation_factor inflation_rate t *
        Simulator2.population_factor population_growth_rate t *
        Simulator2.gdp_factor gdp_impact_factor t ∧
    (∀ (g1 p1 g2 p2 : Json) (baseline tax_rate : ℚ) (n : ℕ),
      Simulator2.run_script g1 p1 baseline adoption compliance tax_rate n
          inflation_rate population_growth_rate gdp_impact_factor =
        Simulator2.run_script g2 p2 baseline adoption compliance tax_rate n
          inflation_rate population_growth_rate gdp_impact_factor) := by
  refine ⟨rfl, ?_, rfl, rfl, rfl, fun _ _ _ _ _ _ _ => rfl⟩
  unfold Simulator2.gdp_factor Simulator2.gdp_growth_rate Simulator2.estimate_gdp_growth_rate
  ring

/-- Claim C8: the macro-extended projection table is identical whatever
the outcomes of the two World Bank indicator fetches — in particular a
run where both requests fail and a run where both succeed with any values
produce the same table cell for cell. -/
theorem C8_fetch_isolated (r1 r2 r3 r4 : Except Unit Json)
    (baseline adoption compliance tax_rate : ℚ) (years : ℕ)
    (inflation_rate population_growth_rate gdp_impact_factor : ℚ) :
    Simulator2.run_script (Simulator2.fetch_world_bank_data r1)
        (Simulator2.fetch_world_bank_data r2) baseline adoption compliance tax_rate
        years inflation_rate population_growth_rate gdp_impact_factor =
      Simulator2.run_script (Simulator2.fetch_world_bank_data r3)
        (Simulator2.fetch_world_bank_data r4) baseline adoption compliance tax_rate
        years inflation_rate population_growth_rate gdp_impact_factor := rfl

/-- Claim C9: on the common columns (year, tax base, tax revenue) the
basic variant agrees with the macro-extended variant run with zero
inflation, zero population growth and zero GDP impact — all macro factors
collapse to 1, leaving only the CBDC multiplier. -/
theorem C9_basic_refines_extended (baseline adoption compliance tax_rate : ℚ)
    (years : ℕ) :
    (simulate_tax_base baseline adoption compliance tax_rate years).map
        (fun row => (row.year, row.tax_base, row.tax_revenue)) =
      (Simulator2.df_results baseline adoption compliance tax_rate years 0 0 0).map
        (fun row => (row.year, row.tax_base, row.tax_revenue)) := by
  unfold simulate_tax_base Simulator2.df_results
  rw [List.map_map, List.map_map]
  refine List.map_congr_left (fun i _ => ?_)
  simp [Function.comp, Simulator2.total_growth_multiplier, Simulator2.cbdc_multiplier,
    Simulator2.inflation_factor, Simulator2.population_factor, Simulator2.gdp_factor,
    Simulator2.alpha]

/-- Claim C10: `load_simulation` is total — for every input string and
every outcome of the standard-library JSON parse, it returns exactly the
values stored under the three top-level keys (`none` for an absent key,
and `(none, none, none)` when the string does not parse to an object),
never propagating an exception. -/
theorem C10_load_simulation_total (loads : String → Except Unit Json) (json_str : String) :
    load_simulation loads json_str =
      (top_level_get (loads json_str) "scenario_a",
       top_level_get (loads json_str) "scenario_b",
       top_level_get (loads json_str) "time_horizon") := by
  unfold load_simulation top_level_get
  cases h : loads json_str with
  | error e => rfl
  | ok j => cases j <;> rfl

end CbdcSim
